import Mathlib

/-!
# Verification of the SFP trend-aggregation and job-orchestration core

Shallow embedding of the trend aggregation engine
(`src/services/trendAggregationService.ts`), the topic selector
(`src/services/trendsService.ts`) and the video job orchestrator
(`src/services/videoJobOrchestrator.ts`), with theorems checking the
natural-language specification against the embedded code.

Numbers are modeled as exact rationals (`ℚ`); strings as Lean `String`
(lists of unicode scalar values).
-/

namespace SFP

/-! ## Keyword normalization

`normalizeKeyword` in `trendAggregationService.ts`:

  `keyword.toLowerCase().replace(/[^\w\sㄱ-힣]/g, '').trim()`

`toLowerCase` is modeled on the ASCII alphabet (`Char.toLower`); the kept
character classes follow the JS definitions of `\w` (`[A-Za-z0-9_]`) and
`\s` (WhiteSpace ∪ LineTerminator), and the Korean block `ㄱ-힣` is the
scalar range U+3131 – U+D7A3.  `String.prototype.trim` removes the same
`\s` set from both ends. -/

/-- JS regex `\w`: ASCII letters, digits and underscore. -/
def isWordChar (c : Char) : Bool :=
  c.isAlphanum || c = '_'

/-- JS regex `\s` (= the set trimmed by `String.prototype.trim`). -/
def isSpaceChar (c : Char) : Bool :=
  [9, 10, 11, 12, 13, 32, 0xa0, 0x1680, 0x2028, 0x2029, 0x202f,
    0x205f, 0x3000, 0xfeff].contains c.toNat
  || (0x2000 ≤ c.toNat && c.toNat ≤ 0x200a)

/-- The Korean range `ㄱ-힣` of the normalization regex. -/
def isKoreanChar (c : Char) : Bool :=
  0x3131 ≤ c.toNat && c.toNat ≤ 0xd7a3

/-- A character survives `.replace(/[^\w\sㄱ-힣]/g, '')`. -/
def isKeptChar (c : Char) : Bool :=
  isWordChar c || isSpaceChar c || isKoreanChar c

/-- `String.prototype.trim` on a character list. -/
def jsTrim (l : List Char) : List Char :=
  ((l.dropWhile isSpaceChar).reverse.dropWhile isSpaceChar).reverse

/-- `normalizeKeyword` (`trendAggregationService.ts` line 336). -/
def normalizeKeyword (s : String) : String :=
  ⟨jsTrim ((s.data.map Char.toLower).filter isKeptChar)⟩

/-! Helper lemmas for idempotence of normalization. -/

lemma toNat_ofNat_valid {n : Nat} (h : n.isValidChar) :
    (Char.ofNat n).toNat = n := by
  rw [Char.ofNat, dif_pos h]
  rfl

lemma toLower_eq (c : Char) :
    c.toLower = if c.toNat ≥ 65 ∧ c.toNat ≤ 90
      then Char.ofNat (c.toNat + 32) else c := rfl

lemma toLower_toLower (c : Char) : c.toLower.toLower = c.toLower := by
  by_cases h : c.toNat ≥ 65 ∧ c.toNat ≤ 90
  · rw [toLower_eq c, if_pos h]
    have hv : (c.toNat + 32).isValidChar := Or.inl (by omega)
    rw [toLower_eq (Char.ofNat (c.toNat + 32)), toNat_ofNat_valid hv,
      if_neg (by omega)]
  · rw [toLower_eq c, if_neg h, toLower_eq c, if_neg h]

lemma mem_of_mem_dropWhile {p : Char → Bool} {l : List Char} {c : Char}
    (h : c ∈ l.dropWhile p) : c ∈ l :=
  (List.dropWhile_sublist p).mem h

lemma mem_of_mem_jsTrim {l : List Char} {c : Char} (h : c ∈ jsTrim l) :
    c ∈ l := by
  unfold jsTrim at h
  rw [List.mem_reverse] at h
  have h2 := mem_of_mem_dropWhile h
  rw [List.mem_reverse] at h2
  exact mem_of_mem_dropWhile h2

lemma dropWhile_dropWhile (p : Char → Bool) (l : List Char) :
    (l.dropWhile p).dropWhile p = l.dropWhile p := by
  induction l with
  | nil => rfl
  | cons x xs ih =>
    by_cases h : p x
    · simp [List.dropWhile_cons, h, ih]
    · simp [List.dropWhile_cons, h]

lemma head?_dropWhile {p : Char → Bool} {l : List Char} {c : Char}
    (h : (l.dropWhile p).head? = some c) : p c = false := by
  induction l with
  | nil => simp at h
  | cons x xs ih =>
    by_cases hx : p x
    · rw [List.dropWhile_cons, if_pos hx] at h
      exact ih h
    · rw [List.dropWhile_cons, if_neg hx] at h
      simp at h
      rw [← h]
      simpa using hx

lemma dropWhile_eq_self_of_head {p : Char → Bool} {l : List Char}
    (h : ∀ c, l.head? = some c → p c = false) : l.dropWhile p = l := by
  cases l with
  | nil => rfl
  | cons x xs =>
    rw [List.dropWhile_cons, if_neg]
    simp [h x rfl]

lemma jsTrim_jsTrim (l : List Char) : jsTrim (jsTrim l) = jsTrim l := by
  unfold jsTrim
  set p := isSpaceChar with hp
  set a := l.dropWhile p with ha
  set b := (a.reverse.dropWhile p) with hb
  -- `jsTrim l = b.reverse`; show dropping again changes nothing.
  have hhead_a : ∀ c, a.head? = some c → p c = false := fun c hc =>
    head?_dropWhile (ha ▸ hc)
  have hdb : b.reverse.dropWhile p = b.reverse := by
    apply dropWhile_eq_self_of_head
    intro c hc
    rw [List.head?_reverse] at hc
    -- the last element of `b` is the head of `a`
    have hsuff : b <:+ a.reverse := hb ▸ List.dropWhile_suffix p
    obtain ⟨t, ht⟩ := hsuff
    by_cases hbnil : b = []
    · rw [hbnil] at hc
      simp at hc
    · have hlast : (t ++ b).getLast? = b.getLast? := by
        rw [List.getLast?_append, hc]
        rfl
      rw [ht, List.getLast?_reverse] at hlast
      rw [← hlast] at hc
      exact hhead_a c hc
  rw [hdb, List.reverse_reverse]
  have : b.dropWhile p = b := by
    rw [hb, dropWhile_dropWhile]
  rw [this]

lemma mem_normalize_props {s : String} {c : Char}
    (h : c ∈ (normalizeKeyword s).data) :
    isKeptChar c = true ∧ c.toLower = c := by
  unfold normalizeKeyword at h
  simp only [String.data] at h
  have h1 : c ∈ (s.data.map Char.toLower).filter isKeptChar :=
    mem_of_mem_jsTrim h
  rw [List.mem_filter] at h1
  obtain ⟨hmem, hkept⟩ := h1
  refine ⟨hkept, ?_⟩
  rw [List.mem_map] at hmem
  obtain ⟨b, _, rfl⟩ := hmem
  exact toLower_toLower b

lemma normalizeKeyword_idem (s : String) :
    normalizeKeyword (normalizeKeyword s) = normalizeKeyword s := by
  have hmap : (normalizeKeyword s).data.map Char.toLower
      = (normalizeKeyword s).data := by
    have h : ∀ c ∈ (normalizeKeyword s).data, c.toLower = id c := by
      intro c hc
      exact (mem_normalize_props hc).2
    rw [List.map_congr_left h, List.map_id]
  have hfilter : ((normalizeKeyword s).data.map Char.toLower).filter isKeptChar
      = (normalizeKeyword s).data := by
    rw [hmap, List.filter_eq_self]
    intro c hc
    exact (mem_normalize_props hc).1
  show String.mk (jsTrim (((normalizeKeyword s).data.map Char.toLower).filter isKeptChar))
      = normalizeKeyword s
  rw [hfilter]
  show String.mk (jsTrim (normalizeKeyword s).data) = normalizeKeyword s
  unfold normalizeKeyword
  rw [jsTrim_jsTrim]

/-- C7: keyword normalization is idempotent: for every input string `x`,
`normalize(normalize(x)) = normalize(x)`. -/
theorem normalizeKeyword_idempotent (s : String) :
    normalizeKeyword (normalizeKeyword s) = normalizeKeyword s :=
  normalizeKeyword_idem s

/-! ## Levenshtein similarity

`calculateSimilarity` (`trendAggregationService.ts` lines 361–388) builds the
standard dynamic-programming matrix `matrix[j][i]` (rows indexed by `str2`,
columns by `str1`) and returns `(maxLength − distance) / maxLength`. -/

/-- One DP row past column 0: entry `i` is
`min (prevRow[i] + 1) (newRow[i-1] + 1) (prevRow[i-1] + cost)`.
`left` is the entry just computed (`newRow[i-1]`), `diag` is `prevRow[i-1]`,
and `prevTail` is the previous row from index `i` on. -/
def levRowAux : List Char → Char → Nat → Nat → List Nat → List Nat
  | [], _, _, _, _ => []
  | _ :: _, _, _, _, [] => []
  | x :: xs, y, left, diag, p :: ps =>
    let cost := if x = y then 0 else 1
    let v := min (min (p + 1) (left + 1)) (diag + cost)
    v :: levRowAux xs y v p ps

/-- Fold the DP rows for each character of `str2`; row `j` starts with
`matrix[j][0] = j`. -/
def levRows (str1 : List Char) : List Char → Nat → List Nat → List Nat
  | [], _, prev => prev
  | y :: ys, j, prev =>
    levRows str1 ys (j + 1) (j :: levRowAux str1 y j (prev.headD 0) prev.tail)

/-- Levenshtein distance: final cell `matrix[len2][len1]` of the DP matrix,
starting from row 0 = `[0, 1, …, len1]`. -/
def levenshtein (str1 str2 : List Char) : Nat :=
  (levRows str1 str2 1 (List.range (str1.length + 1))).getLastD 0

/-- `calculateSimilarity`: normalized edit-distance similarity. -/
def calculateSimilarity (str1 str2 : String) : ℚ :=
  let len1 := str1.data.length
  let len2 := str2.data.length
  if len1 = 0 then (if len2 = 0 then 1 else 0)
  else if len2 = 0 then 0
  else
    let distance := levenshtein str1.data str2.data
    let maxLength := max len1 len2
    ((maxLength : ℚ) - (distance : ℚ)) / (maxLength : ℚ)

/-- Loop body of `findSimilarKeyword` (lines 340–359): first existing keyword
whose normalization matches exactly, or whose similarity is strictly above
`0.7`. -/
def findSimilarAux (normalized : String) : List String → Option String
  | [] => none
  | existing :: rest =>
    let existingNormalized := normalizeKeyword existing
    if normalized = existingNormalized then some existing
    else if calculateSimilarity normalized existingNormalized > 7/10 then
      some existing
    else findSimilarAux normalized rest

/-- `findSimilarKeyword` (lines 340–359). -/
def findSimilarKeyword (keyword : String) (existingKeywords : List String) :
    Option String :=
  findSimilarAux (normalizeKeyword keyword) existingKeywords

/-! ## Trend data model

Source records from `trendsService.ts`, `naverTrendsService.ts` and
`youtubeTrendsService.ts`.  Numeric fields are exact rationals; the
`publishedAt` date string is modeled by its epoch-millisecond value. -/

structure TrendTopic where
  keyword : String
  score : ℚ
  region : String
  category : String
  relatedQueries : List String
  predictedViews : ℚ
  volatility : ℚ
  competitiveness : ℚ
deriving DecidableEq

structure NaverTrendTopic where
  keyword : String
  searchVolume : ℚ
  growth : ℚ
  category : String
  relatedKeywords : List String
deriving DecidableEq

structure YouTubeTrendTopic where
  keyword : String
  title : String
  channelTitle : String
  viewCount : ℚ
  likeCount : ℚ
  commentCount : ℚ
  publishedAt : ℚ
  categoryId : String
  tags : List String
  trendScore : ℚ
  thumbnail : String
  videoId : String
deriving DecidableEq

inductive Source where
  | google
  | naver
  | youtube
deriving DecidableEq

structure SourceData where
  google : Option TrendTopic := none
  naver : Option NaverTrendTopic := none
  youtube : Option YouTubeTrendTopic := none
deriving DecidableEq

structure AggregatedTrendResult where
  keyword : String
  aggregatedScore : ℚ
  sources : List Source
  sourceData : SourceData
  category : String
  predictedViews : ℚ
  confidence : ℚ
  crossPlatformValidation : Bool
  trendVelocity : ℚ
deriving DecidableEq

/-- `createAggregatedTrend` (lines 222–234). -/
def createAggregatedTrend (keyword : String) : AggregatedTrendResult where
  keyword := keyword
  aggregatedScore := 0
  sources := []
  sourceData := {}
  category := "general"
  predictedViews := 0
  confidence := 0
  crossPlatformValidation := false
  trendVelocity := 0

/-- The `keywordMap`: a JS `Map` iterated in insertion order. -/
abbrev KeywordMap := List (String × AggregatedTrendResult)

/-- In-place mutation of the entry stored under key `k`. -/
def mapUpdate (m : KeywordMap) (k : String)
    (f : AggregatedTrendResult → AggregatedTrendResult) : KeywordMap :=
  m.map fun e => if e.1 = k then (e.1, f e.2) else e

/-- `keywordMap.get` (first — and only — binding of the key). -/
def mapGet (m : KeywordMap) (k : String) : Option AggregatedTrendResult :=
  ((m.filter fun e => e.1 = k).head?).map Prod.snd

/-- `Array.from(keywordMap.keys())`. -/
def mapKeys (m : KeywordMap) : List String :=
  m.map Prod.fst

/-- Google loop body (lines 56–64): exact-match grouping only, and `'google'`
is pushed onto `sources` without a duplicate check. -/
def processGoogleTrend (m : KeywordMap) (trend : TrendTopic) : KeywordMap :=
  let normalizedKeyword := normalizeKeyword trend.keyword
  let m1 := if (mapGet m normalizedKeyword).isNone
    then m ++ [(normalizedKeyword, createAggregatedTrend trend.keyword)]
    else m
  mapUpdate m1 normalizedKeyword fun a =>
    { a with
      sourceData := { a.sourceData with google := some trend }
      sources := a.sources ++ [Source.google] }

/-- Naver loop body (lines 67–86): exact match, else fuzzy match against the
existing keys, else a fresh cluster; `'naver'` is pushed only if absent. -/
def processNaverTrend (m : KeywordMap) (trend : NaverTrendTopic) : KeywordMap :=
  let normalizedKeyword := normalizeKeyword trend.keyword
  let attach : AggregatedTrendResult → AggregatedTrendResult := fun a =>
    { a with
      sourceData := { a.sourceData with naver := some trend }
      sources := if a.sources.contains Source.naver then a.sources
        else a.sources ++ [Source.naver] }
  match mapGet m normalizedKeyword with
  | some _ => mapUpdate m normalizedKeyword attach
  | none =>
    match findSimilarKeyword normalizedKeyword (mapKeys m) with
    | some similarKeyword => mapUpdate m similarKeyword attach
    | none => m ++ [(normalizedKeyword, attach (createAggregatedTrend trend.keyword))]

/-- YouTube loop body (lines 89–107), same shape as the Naver loop. -/
def processYouTubeTrend (m : KeywordMap) (trend : YouTubeTrendTopic) :
    KeywordMap :=
  let normalizedKeyword := normalizeKeyword trend.keyword
  let attach : AggregatedTrendResult → AggregatedTrendResult := fun a =>
    { a with
      sourceData := { a.sourceData with youtube := some trend }
      sources := if a.sources.contains Source.youtube then a.sources
        else a.sources ++ [Source.youtube] }
  match mapGet m normalizedKeyword with
  | some _ => mapUpdate m normalizedKeyword attach
  | none =>
    match findSimilarKeyword normalizedKeyword (mapKeys m) with
    | some similarKeyword => mapUpdate m similarKeyword attach
    | none => m ++ [(normalizedKeyword, attach (createAggregatedTrend trend.keyword))]

/-- `Math.round` (round half toward `+∞`). -/
def jsRound (q : ℚ) : ℤ :=
  ⌊q + 1/2⌋

/-- `mapYouTubeCategoryToGeneral` (lines 390–409). -/
def mapYouTubeCategoryToGeneral (categoryId : String) : String :=
  ([("1", "entertainment"), ("2", "entertainment"), ("10", "lifestyle"),
     ("15", "lifestyle"), ("17", "lifestyle"), ("19", "lifestyle"),
     ("20", "entertainment"), ("22", "lifestyle"), ("23", "entertainment"),
     ("24", "entertainment"), ("25", "lifestyle"), ("26", "lifestyle"),
     ("27", "lifestyle"), ("28", "technology")].lookup categoryId).getD
    "general"

/-- `calculateConfidence` (lines 289–313). -/
def calculateConfidence (trend : AggregatedTrendResult) : ℚ :=
  let c0 : ℚ := 1/2
  let c1 := if trend.sources.length > 1 then c0 + 3/10 else c0
  let c2 := if trend.sources.contains Source.naver then c1 + 2/10 else c1
  let c3 := match trend.sourceData.youtube with
    | some yt => if yt.trendScore > 1000000 then c2 + 1/10 else c2
    | none => c2
  let c4 := match trend.sourceData.naver with
    | some nv => if nv.growth > 100 then c3 + 1/10 else c3
    | none => c3
  min c4 1

/-- The YouTube / default part of `calculateTrendVelocity`. -/
def calculateTrendVelocityNoNaver (now : ℚ) (trend : AggregatedTrendResult) :
    ℚ :=
  match trend.sourceData.youtube with
  | some yt =>
    let daysSincePublished := (now - yt.publishedAt) / (1000 * 60 * 60 * 24)
    let recencyFactor := max 0 ((7 - daysSincePublished) / 7)
    let engagementRate := if yt.viewCount > 0
      then (yt.likeCount + yt.commentCount) / yt.viewCount else 0
    recencyFactor * engagementRate * 10
  | none => 1/2

/-- `calculateTrendVelocity` (lines 315–334).  `now` is `Date.now()`, in
epoch milliseconds.  `sourceData.naver?.growth` is a JS truthiness test, so
the Naver branch is taken only when the growth value is nonzero. -/
def calculateTrendVelocity (now : ℚ) (trend : AggregatedTrendResult) : ℚ :=
  match trend.sourceData.naver with
  | some nv =>
    if nv.growth ≠ 0 then nv.growth / 100
    else calculateTrendVelocityNoNaver now trend
  | none => calculateTrendVelocityNoNaver now trend

/-- YouTube category fallback (lines 277–279). -/
def categoryFallbackYouTube (trend : AggregatedTrendResult) : String :=
  match trend.sourceData.youtube with
  | some yt =>
    if yt.categoryId ≠ "" then mapYouTubeCategoryToGeneral yt.categoryId
    else trend.category
  | none => trend.category

/-- Category selection when the Naver category is absent or generic
(lines 275–279). -/
def categoryFallback (trend : AggregatedTrendResult) : String :=
  match trend.sourceData.google with
  | some g =>
    if g.category ≠ "" ∧ g.category ≠ "general" then g.category
    else categoryFallbackYouTube trend
  | none => categoryFallbackYouTube trend

/-- `calculateAggregatedMetrics` (lines 236–287), as a pure record update. -/
def calculateAggregatedMetrics (now : ℚ) (trend : AggregatedTrendResult) :
    AggregatedTrendResult :=
  let sourceData := trend.sourceData
  let googleScore : ℚ := match sourceData.google with
    | some g => g.score * 1
    | none => 0
  let googleWeight : ℚ := match sourceData.google with
    | some _ => 1
    | none => 0
  let naverScore : ℚ := match sourceData.naver with
    | some nv => nv.searchVolume * (3/2)
    | none => 0
  let naverWeight : ℚ := match sourceData.naver with
    | some _ => 3/2
    | none => 0
  let youtubeScore : ℚ := match sourceData.youtube with
    | some yt => (jsRound (yt.viewCount / 10000) : ℚ) * (6/5)
    | none => 0
  let youtubeWeight : ℚ := match sourceData.youtube with
    | some _ => 6/5
    | none => 0
  let totalScore := googleScore + naverScore + youtubeScore
  let totalWeight := googleWeight + naverWeight + youtubeWeight
  let aggregatedScore := if totalWeight > 0 then totalScore / totalWeight else 0
  let pv0 : ℚ := 0
  let pv1 := match sourceData.google with
    | some g => if g.predictedViews ≠ 0 then max pv0 g.predictedViews else pv0
    | none => pv0
  let pv2 := match sourceData.naver with
    | some nv => if nv.searchVolume ≠ 0 then max pv1 (nv.searchVolume * 100)
      else pv1
    | none => pv1
  let pv3 := match sourceData.youtube with
    | some yt => if yt.viewCount ≠ 0 then max pv2 yt.viewCount else pv2
    | none => pv2
  let category :=
    match sourceData.naver with
    | some nv =>
      if nv.category ≠ "" ∧ nv.category ≠ "general" then nv.category
      else categoryFallback trend
    | none => categoryFallback trend
  let trend1 :=
    { trend with
      aggregatedScore := aggregatedScore
      predictedViews := pv3
      category := category
      crossPlatformValidation := trend.sources.length > 1 }
  { trend1 with
    confidence := calculateConfidence trend1
    trendVelocity := calculateTrendVelocity now trend1 }

/-- `aggregateMultiSourceTrends` (lines 44–126): the three source loops over
the shared keyword map, then metric computation and the final stable
descending sort by `aggregatedScore`. -/
def aggregateMultiSourceTrends (now : ℚ) (googleTrends : List TrendTopic)
    (naverTrends : List NaverTrendTopic)
    (youtubeTrends : List YouTubeTrendTopic) : List AggregatedTrendResult :=
  let m0 : KeywordMap := []
  let m1 := googleTrends.foldl processGoogleTrend m0
  let m2 := naverTrends.foldl processNaverTrend m1
  let m3 := youtubeTrends.foldl processYouTubeTrend m2
  let aggregatedTrends := m3.map fun e => calculateAggregatedMetrics now e.2
  aggregatedTrends.mergeSort fun a b =>
    decide (b.aggregatedScore ≤ a.aggregatedScore)

/-! ## Final topic selection

`selectFinalTopic` (`trendsService.ts` lines 416–429): score each topic with
the weighted formula, sort descending with the (stable) JS array sort, and
take element 0 (`|| null` on the empty array). -/

/-- The `finalScore` of the weighted scoring (60% predicted views, 25%
volatility, 15% inverse competitiveness). -/
def finalScore (topic : TrendTopic) : ℚ :=
  topic.predictedViews * (6/10) + topic.volatility * 100 * (25/100)
    + (1 - topic.competitiveness) * 100 * (15/100)

/-- The JS comparator `(a, b) => b.finalScore - a.finalScore`: `a` may stay
before `b` iff the comparator is `≤ 0`, i.e. `finalScore b ≤ finalScore a`. -/
def topicSortLe (a b : TrendTopic) : Bool :=
  decide (finalScore b ≤ finalScore a)

/-- `selectFinalTopic` (lines 416–429).  `Array.prototype.sort` is stable
(ES2019), modeled by `List.mergeSort` on the descending comparator. -/
def selectFinalTopic (topics : List TrendTopic) : Option TrendTopic :=
  if topics.length = 0 then none
  else (topics.mergeSort topicSortLe).head?

/-! ## Job orchestration

`videoJobOrchestrator.ts`.  The collaborators (topic discovery, script
generation, TTS, video synthesis, thumbnails, upload) are external systems:
one run of `createVideoJob` / `createVideoJobWithScript` is modeled as a
function of the outcome each collaborator would produce if invoked
(`Except`: success value or thrown error message).  Persistence is the
`JobRow` (the `video_jobs` columns the orchestrator writes); the trace
records every persisted `status` value in write order and which
collaborators were actually invoked.  Only the config flags read by the
orchestrator's control flow (`skipVideoGeneration`, `skipUpload`) are
modeled; both default to `undefined` (false) in the source. -/

structure GeneratedScript where
  title : String
  hook : String
  mainContent : String
  fullScript : String
  keywords : List String
  estimatedDuration : ℚ
  generationTime : ℚ
deriving DecidableEq

structure TTSResult where
  audioFilePath : String
  duration : ℚ
  generationTime : ℚ
deriving DecidableEq

structure VideoGenerationResult where
  videoFilePath : String
  generationTime : ℚ
  provider : String
  taskId : String
  prompt : String
  resolution : String
deriving DecidableEq

structure ThumbnailVariants where
  thumbnailAPath : String
  thumbnailBPath : String
deriving DecidableEq

structure YouTubeUploadResult where
  videoId : String
  title : String
  description : String
  uploadStatus : String
  uploadTime : ℚ
deriving DecidableEq

/-- The persisted `video_jobs.status` values (`database/schema.sql`). -/
inductive JobStatus where
  | created
  | script_generation
  | narration
  | video_synthesis
  | thumbnail_generation
  | youtube_upload
  | completed
  | failed
deriving DecidableEq

/-- Position of a status in the pipeline stage order
`Created → ScriptGeneration → Narration → VideoSynthesis →
ThumbnailGeneration → Upload → Completed`. -/
def stageIndex : JobStatus → Nat
  | .created => 0
  | .script_generation => 1
  | .narration => 2
  | .video_synthesis => 3
  | .thumbnail_generation => 4
  | .youtube_upload => 5
  | .completed => 6
  | .failed => 7

structure VideoJobConfig where
  skipVideoGeneration : Bool := false
  skipUpload : Bool := false
deriving DecidableEq

/-- The `video_jobs` columns written by the orchestrator. -/
structure JobRow where
  status : JobStatus
  topic : String
  script_text : Option String := none
  narration_file_path : Option String := none
  video_file_path : Option String := none
  error_message : Option String := none
  completed_at : Bool := false
deriving DecidableEq

/-- Outcomes of the external collaborators for one run: the value each one
would return, or the message of the error it would throw, if invoked. -/
structure OrchestrationEnv where
  discover : Except String TrendTopic
  script : Except String GeneratedScript
  tts : Except String TTSResult
  video : Except String VideoGenerationResult
  thumbnails : Except String ThumbnailVariants
  upload : Except String YouTubeUploadResult

/-- Observable effects of one orchestrator run: the final persisted row, the
persisted status values in write order, and which collaborators ran. -/
structure OrchTrace where
  row : Option JobRow := none
  statusWrites : List JobStatus := []
  scriptCalled : Bool := false
  ttsCalled : Bool := false
  videoCalled : Bool := false
  thumbnailsCalled : Bool := false
  uploadCalled : Bool := false
deriving DecidableEq

/-- The `VideoJobResult` returned on success. -/
structure VideoJobResult where
  topic : TrendTopic
  script : GeneratedScript
  audio : TTSResult
  video : Option VideoGenerationResult := none
  thumbnails : Option ThumbnailVariants := none
  upload : Option YouTubeUploadResult := none
  status : String
deriving DecidableEq

/-- A `videoJobModel.update` that includes a `status` field: the row is
rewritten and the status write is appended to the persisted sequence. -/
def writeStatus (t : OrchTrace) (s : JobStatus) (f : JobRow → JobRow) :
    OrchTrace :=
  { t with
    row := t.row.map fun r => { f r with status := s }
    statusWrites := t.statusWrites ++ [s] }

/-- A `videoJobModel.update` that does not touch `status`. -/
def updateRow (t : OrchTrace) (f : JobRow → JobRow) : OrchTrace :=
  { t with row := t.row.map f }

/-- The catch handler (lines 192–213 / 806–824): if a job record exists,
persist `status = 'failed'` with the error message. -/
def failJob (t : OrchTrace) (e : String) : OrchTrace :=
  writeStatus t .failed fun r =>
    { r with error_message := some e, completed_at := true }

/-- Steps 6–7 of `createVideoJob` (lines 141–191): thumbnails and upload,
both guarded by `video && !config.skipUpload` and not individually
try/caught, then the final `status = 'completed'` update. -/
def createVideoJobTail (config : VideoJobConfig) (env : OrchestrationEnv)
    (topic : TrendTopic) (script : GeneratedScript) (audio : TTSResult)
    (t : OrchTrace) (video : Option VideoGenerationResult) :
    OrchTrace × Except String VideoJobResult :=
  if video.isSome && !config.skipUpload then
    let t1 := { t with thumbnailsCalled := true }
    match env.thumbnails with
    | .error e => (failJob t1 e, .error e)
    | .ok thumbnails =>
      let t2 := { t1 with uploadCalled := true }
      match env.upload with
      | .error e => (failJob t2 e, .error e)
      | .ok upload =>
        (writeStatus t2 .completed fun r => { r with completed_at := true },
         .ok { topic := topic, script := script, audio := audio,
               video := video, thumbnails := some thumbnails,
               upload := some upload, status := "completed" })
  else
    (writeStatus t .completed fun r => { r with completed_at := true },
     .ok { topic := topic, script := script, audio := audio, video := video,
           thumbnails := none, upload := none, status := "completed" })

/-- `createVideoJob` (lines 76–222). -/
def createVideoJob (config : VideoJobConfig) (env : OrchestrationEnv) :
    OrchTrace × Except String VideoJobResult :=
  match env.discover with
  | .error e => ({}, .error e)
  | .ok topic =>
    let t0 : OrchTrace :=
      { row := some { status := .script_generation, topic := topic.keyword }
        statusWrites := [.script_generation]
        scriptCalled := true }
    match env.script with
    | .error e => (failJob t0 e, .error e)
    | .ok script =>
      let t1 :=
        { updateRow t0 (fun r => { r with script_text := some script.fullScript })
          with ttsCalled := true }
      match env.tts with
      | .error e => (failJob t1 e, .error e)
      | .ok audio =>
        let t2 := writeStatus t1 .narration fun r =>
          { r with narration_file_path := some audio.audioFilePath }
        if config.skipVideoGeneration then
          createVideoJobTail config env topic script audio t2 none
        else
          let t3 := { t2 with videoCalled := true }
          match env.video with
          | .error e => (failJob t3 e, .error e)
          | .ok video =>
            let t4 := writeStatus t3 .video_synthesis fun r =>
              { r with video_file_path := some video.videoFilePath }
            createVideoJobTail config env topic script audio t4 (some video)

/-- Tail of `createVideoJobWithScript` (lines 717–804): thumbnails are always
attempted with the failure swallowed; upload runs when not skipped and a
video file path exists, with the failure swallowed; then the final
`status = 'completed'` update. -/
def createVideoJobWithScriptTail (config : VideoJobConfig)
    (env : OrchestrationEnv) (topic : TrendTopic) (script : GeneratedScript)
    (audio : TTSResult) (t : OrchTrace)
    (video : Option VideoGenerationResult) :
    OrchTrace × Except String VideoJobResult :=
  let t1 := { t with thumbnailsCalled := true }
  let thumbnails := env.thumbnails.toOption
  let doUpload := !config.skipUpload &&
    (match video with
     | some v => v.videoFilePath != ""
     | none => false)
  let t2 := { t1 with uploadCalled := doUpload }
  let upload := if doUpload then env.upload.toOption else none
  (writeStatus t2 .completed fun r => { r with completed_at := true },
   .ok { topic := topic, script := script, audio := audio, video := video,
         thumbnails := thumbnails, upload := upload, status := "completed" })

/-- `createVideoJobWithScript` (lines 665–833).  The job is created with the
pre-generated script already stored; after narration the persisted status
jumps to `video_synthesis`, and a successful video step persists
`status = 'completed'` together with the video fields. -/
def createVideoJobWithScript (topic : TrendTopic) (script : GeneratedScript)
    (config : VideoJobConfig) (env : OrchestrationEnv) :
    OrchTrace × Except String VideoJobResult :=
  let t0 : OrchTrace :=
    { row := some { status := .script_generation, topic := topic.keyword,
                    script_text := some script.fullScript }
      statusWrites := [.script_generation]
      ttsCalled := true }
  match env.tts with
  | .error e => (failJob t0 e, .error e)
  | .ok audio =>
    let t1 := writeStatus t0 .video_synthesis fun r =>
      { r with narration_file_path := some audio.audioFilePath }
    if config.skipVideoGeneration then
      createVideoJobWithScriptTail config env topic script audio t1 none
    else
      let t2 := { t1 with videoCalled := true }
      match env.video with
      | .error e => (failJob t2 e, .error e)
      | .ok video =>
        let t3 := writeStatus t2 .completed fun r =>
          { r with video_file_path := some video.videoFilePath }
        createVideoJobWithScriptTail config env topic script audio t3
          (some video)

/-! ## Status-sequence predicates (claim C1) -/

/-- One persisted transition is forward: either the new status is `failed`
coming from a non-terminal status, or the stage index does not decrease. -/
def stepOk (a b : JobStatus) : Bool :=
  if b = .failed then !(a = .failed) && !(a = .completed)
  else !(a = .failed) && decide (stageIndex a ≤ stageIndex b)

/-- Every adjacent pair of persisted status values is a forward step. -/
def forwardOnly : List JobStatus → Bool
  | [] => true
  | [_] => true
  | a :: b :: rest => stepOk a b && forwardOnly (b :: rest)

/-- No `failed` write occurs anywhere after a `completed` write. -/
def noFailedAfterCompleted : List JobStatus → Bool
  | [] => true
  | .completed :: rest =>
    !(rest.contains .failed) && noFailedAfterCompleted rest
  | _ :: rest => noFailedAfterCompleted rest

/-- C1: in every execution of `createVideoJob` and of
`createVideoJobWithScript` — any collaborator outcomes, any config — the
sequence of persisted status values only moves forward through the stage
order `Created → ScriptGeneration → Narration → VideoSynthesis →
ThumbnailGeneration → Upload → Completed` (skipping ahead allowed), except
that `failed` may be written from a non-terminal status; in particular no
`failed` write ever follows a `completed` write. -/
theorem videoJob_statusWrites_forward (config : VideoJobConfig)
    (env : OrchestrationEnv) (topic : TrendTopic) (script : GeneratedScript) :
    (forwardOnly (createVideoJob config env).1.statusWrites = true
      ∧ noFailedAfterCompleted (createVideoJob config env).1.statusWrites = true)
    ∧ (forwardOnly (createVideoJobWithScript topic script config env).1.statusWrites = true
      ∧ noFailedAfterCompleted
          (createVideoJobWithScript topic script config env).1.statusWrites = true) := by
  obtain ⟨d, s, a, v, th, up⟩ := env
  obtain ⟨sv, su⟩ := config
  cases d <;> cases s <;> cases a <;> cases v <;> cases th <;> cases up <;>
    cases sv <;> cases su <;>
      exact ⟨⟨rfl, rfl⟩, ⟨rfl, rfl⟩⟩

/-! ## Concrete fixtures used by witnesses and counterexamples -/

def sampleTopic : TrendTopic where
  keyword := "ai"
  score := 10
  region := "KR"
  category := "technology"
  relatedQueries := []
  predictedViews := 1000
  volatility := 1/5
  competitiveness := 4/5

def sampleScript : GeneratedScript where
  title := "title"
  hook := "hook"
  mainContent := "content"
  fullScript := "full script"
  keywords := ["ai"]
  estimatedDuration := 58
  generationTime := 1000

def sampleAudio : TTSResult where
  audioFilePath := "audio.mp3"
  duration := 58
  generationTime := 1000

def sampleVideo : VideoGenerationResult where
  videoFilePath := "video.mp4"
  generationTime := 1000
  provider := "pika"
  taskId := "task-1"
  prompt := "prompt"
  resolution := "1080x1920"

def sampleThumbnails : ThumbnailVariants where
  thumbnailAPath := "a.png"
  thumbnailBPath := "b.png"

def sampleUpload : YouTubeUploadResult where
  videoId := "vid-1"
  title := "title"
  description := "description"
  uploadStatus := "uploaded"
  uploadTime := 1000

/-- An environment in which every collaborator succeeds. -/
def allOkEnv : OrchestrationEnv where
  discover := .ok sampleTopic
  script := .ok sampleScript
  tts := .ok sampleAudio
  video := .ok sampleVideo
  thumbnails := .ok sampleThumbnails
  upload := .ok sampleUpload

/-! ## C4: script-generation failure -/

/-- C4: if the script-generation collaborator call inside `createVideoJob`
fails (with a non-empty thrown message), the persisted job row has
`status = 'failed'` and a non-empty `error_message`, and neither the TTS nor
the video-synthesis collaborator is invoked. -/
theorem script_failure_fails_job (config : VideoJobConfig)
    (env : OrchestrationEnv) (topic : TrendTopic) (e : String)
    (hd : env.discover = .ok topic) (hs : env.script = .error e)
    (he : e ≠ "") :
    ∃ r, (createVideoJob config env).1.row = some r
      ∧ r.status = .failed
      ∧ (∃ m, r.error_message = some m ∧ m ≠ "")
      ∧ (createVideoJob config env).1.ttsCalled = false
      ∧ (createVideoJob config env).1.videoCalled = false := by
  obtain ⟨d, s, a, v, th, up⟩ := env
  simp only at hd hs
  subst hd
  subst hs
  exact ⟨_, rfl, rfl, ⟨e, rfl, he⟩, rfl, rfl⟩

/-- Witness for C4 at a concrete run. -/
theorem script_failure_fails_job_witness :
    ∃ r, (createVideoJob {} { allOkEnv with script := .error "API down" }).1.row
        = some r
      ∧ r.status = .failed
      ∧ (∃ m, r.error_message = some m ∧ m ≠ "")
      ∧ (createVideoJob {} { allOkEnv with script := .error "API down" }).1.ttsCalled = false
      ∧ (createVideoJob {} { allOkEnv with script := .error "API down" }).1.videoCalled = false :=
  script_failure_fails_job {} _ sampleTopic "API down" rfl rfl (by decide)

/-! ## C6: skipVideoGeneration reaches Completed without video -/

/-- C6: a `createVideoJob` run with `skipVideoGeneration = true` whose
remaining collaborators succeed ends with persisted `status = 'completed'`,
never invokes the video-synthesis collaborator, and leaves
`video_file_path` null. -/
theorem skipVideo_completes_without_video (config : VideoJobConfig)
    (env : OrchestrationEnv) (topic : TrendTopic) (script : GeneratedScript)
    (audio : TTSResult) (hsv : config.skipVideoGeneration = true)
    (hd : env.discover = .ok topic) (hs : env.script = .ok script)
    (ha : env.tts = .ok audio) :
    (createVideoJob config env).1.videoCalled = false
      ∧ ∃ r, (createVideoJob config env).1.row = some r
        ∧ r.status = .completed
        ∧ r.video_file_path = none := by
  obtain ⟨d, s, a, v, th, up⟩ := env
  obtain ⟨sv, su⟩ := config
  simp only at hd hs ha hsv
  subst hd
  subst hs
  subst ha
  subst hsv
  exact ⟨rfl, _, rfl, rfl, rfl⟩

/-- Witness for C6 at a concrete run. -/
theorem skipVideo_completes_without_video_witness :
    (createVideoJob { skipVideoGeneration := true } allOkEnv).1.videoCalled = false
      ∧ ∃ r, (createVideoJob { skipVideoGeneration := true } allOkEnv).1.row = some r
        ∧ r.status = .completed
        ∧ r.video_file_path = none :=
  skipVideo_completes_without_video { skipVideoGeneration := true } allOkEnv
    sampleTopic sampleScript sampleAudio rfl rfl rfl rfl

/-! ## C10: skipVideoGeneration also suppresses thumbnails and upload -/

/-- C10: with `skipVideoGeneration = true`, `createVideoJob` never invokes
the thumbnail or upload collaborators — whatever `skipUpload` is and whatever
the collaborators would do — and a successful result carries
`thumbnails = none` and `upload = none`. -/
theorem skipVideo_suppresses_thumbnails_upload (config : VideoJobConfig)
    (env : OrchestrationEnv) (hsv : config.skipVideoGeneration = true) :
    (createVideoJob config env).1.thumbnailsCalled = false
      ∧ (createVideoJob config env).1.uploadCalled = false
      ∧ ∀ res, (createVideoJob config env).2 = .ok res →
          res.thumbnails = none ∧ res.upload = none := by
  obtain ⟨d, s, a, v, th, up⟩ := env
  obtain ⟨sv, su⟩ := config
  simp only at hsv
  subst hsv
  cases d with
  | error e => exact ⟨rfl, rfl, fun res h => by cases h⟩
  | ok topic =>
    cases s with
    | error e => exact ⟨rfl, rfl, fun res h => by cases h⟩
    | ok script =>
      cases a with
      | error e => exact ⟨rfl, rfl, fun res h => by cases h⟩
      | ok audio =>
        refine ⟨rfl, rfl, fun res h => ?_⟩
        cases h
        exact ⟨rfl, rfl⟩

/-- Witness for C10 at a concrete run (`skipUpload = false`). -/
theorem skipVideo_suppresses_thumbnails_upload_witness :
    (createVideoJob { skipVideoGeneration := true } allOkEnv).1.thumbnailsCalled = false
      ∧ (createVideoJob { skipVideoGeneration := true } allOkEnv).1.uploadCalled = false
      ∧ ∀ res, (createVideoJob { skipVideoGeneration := true } allOkEnv).2 = .ok res →
          res.thumbnails = none ∧ res.upload = none :=
  skipVideo_suppresses_thumbnails_upload { skipVideoGeneration := true }
    allOkEnv rfl

/-! ## C3: final topic selection -/

/-- The spec's worked example: `{predictedViews:1000, volatility:0.2,
competitiveness:0.8}`. -/
def exampleTopicA : TrendTopic where
  keyword := "first"
  score := 0
  region := "KR"
  category := "general"
  relatedQueries := []
  predictedViews := 1000
  volatility := 2/10
  competitiveness := 8/10

/-- The spec's worked example: `{predictedViews:5000, volatility:0.6,
competitiveness:0.3}`. -/
def exampleTopicB : TrendTopic where
  keyword := "second"
  score := 0
  region := "KR"
  category := "general"
  relatedQueries := []
  predictedViews := 5000
  volatility := 6/10
  competitiveness := 3/10

lemma topicSortLe_trans (a b c : TrendTopic) (hab : topicSortLe a b)
    (hbc : topicSortLe b c) : topicSortLe a c := by
  simp only [topicSortLe, decide_eq_true_eq] at *
  exact le_trans hbc hab

lemma topicSortLe_total (a b : TrendTopic) :
    topicSortLe a b || topicSortLe b a := by
  simp only [topicSortLe, Bool.or_eq_true, decide_eq_true_eq]
  exact le_total (finalScore b) (finalScore a)

/-- Core of C3: on a non-empty list, `selectFinalTopic` returns the first
topic of maximal `finalScore`. -/
lemma selectFinalTopic_nonempty (topics : List TrendTopic) (h : topics ≠ []) :
    ∃ t, selectFinalTopic topics = some t
      ∧ t ∈ topics
      ∧ (∀ u ∈ topics, finalScore u ≤ finalScore t)
      ∧ ∃ l₁ l₂, topics = l₁ ++ t :: l₂
          ∧ ∀ u ∈ l₁, finalScore u < finalScore t := by
  have hperm := List.mergeSort_perm topics topicSortLe
  have hsorted := List.sorted_mergeSort topicSortLe_trans topicSortLe_total
    topics
  obtain ⟨t, rest, hsort_eq⟩ : ∃ t rest,
      topics.mergeSort topicSortLe = t :: rest := by
    cases hm : topics.mergeSort topicSortLe with
    | nil =>
      exfalso
      have hlen := hperm.length_eq
      rw [hm] at hlen
      exact h (List.eq_nil_of_length_eq_zero (by simpa using hlen.symm))
    | cons t rest => exact ⟨t, rest, rfl⟩
  have hmem : t ∈ topics := hperm.mem_iff.mp
    (by rw [hsort_eq]; exact List.mem_cons_self t rest)
  have hmax : ∀ u ∈ topics, finalScore u ≤ finalScore t := by
    intro u hu
    have hu2 : u ∈ topics.mergeSort topicSortLe := hperm.mem_iff.mpr hu
    rw [hsort_eq] at hu2
    rcases List.mem_cons.mp hu2 with rfl | hu
    · exact le_refl _
    · have := (List.pairwise_cons.mp (hsort_eq ▸ hsorted)).1 u hu
      simpa [topicSortLe] using this
  refine ⟨t, ?_, hmem, hmax, ?_⟩
  · unfold selectFinalTopic
    rw [if_neg (by simpa using h), hsort_eq]
    rfl
  · -- stability: the head is the first topic achieving the maximum
    set pred : TrendTopic → Bool := fun u => decide (finalScore u = finalScore t)
      with hpred
    have hcpair : (topics.filter pred).Pairwise
        (fun a b => topicSortLe a b = true) := by
      apply List.pairwise_of_forall_mem_list
      intro a ha b hb
      have ha' := (List.mem_filter.mp ha).2
      have hb' := (List.mem_filter.mp hb).2
      simp only [hpred, decide_eq_true_eq] at ha' hb'
      simp [topicSortLe, ha', hb']
    have hcsub : List.Sublist (topics.filter pred)
        (topics.mergeSort topicSortLe) :=
      List.sublist_mergeSort topicSortLe_trans topicSortLe_total hcpair
        (List.filter_sublist topics)
    have hcsub2 : List.Sublist (topics.filter pred)
        ((topics.mergeSort topicSortLe).filter pred) := by
      have hff := hcsub.filter pred
      rwa [List.filter_filter, show (fun a => pred a && pred a) = pred
        from funext fun a => Bool.and_self (pred a)] at hff
    have hlen : ((topics.mergeSort topicSortLe).filter pred).length
        = (topics.filter pred).length :=
      (hperm.filter pred).length_eq
    have hceq : topics.filter pred
        = (topics.mergeSort topicSortLe).filter pred :=
      hcsub2.eq_of_length hlen.symm
    have hpredt : pred t = true := by
      simp [hpred]
    rw [hsort_eq, List.filter_cons_of_pos hpredt] at hceq
    obtain ⟨l₁, l₂, hsplit, hl₁, -, -⟩ := List.filter_eq_cons_iff.mp hceq
    refine ⟨l₁, l₂, hsplit, ?_⟩
    intro u hu
    have humem : u ∈ topics := by
      rw [hsplit]
      exact List.mem_append_left _ hu
    have hne : finalScore u ≠ finalScore t := by
      have := hl₁ u hu
      simpa [hpred] using this
    exact lt_of_le_of_ne (hmax u humem) hne

/-- C3: on a non-empty list `selectFinalTopic` returns a topic of maximal
`finalScore = 0.6·predictedViews + 0.25·(volatility·100) +
0.15·((1−competitiveness)·100)`, with every earlier topic scoring strictly
less (ties go to the first-discovered topic); on the empty list it returns
`null`; and on the spec's two worked example topics it picks the second. -/
theorem selectFinalTopic_spec (topics : List TrendTopic) (h : topics ≠ []) :
    (∃ t, selectFinalTopic topics = some t
      ∧ t ∈ topics
      ∧ (∀ u ∈ topics, finalScore u ≤ finalScore t)
      ∧ ∃ l₁ l₂, topics = l₁ ++ t :: l₂
          ∧ ∀ u ∈ l₁, finalScore u < finalScore t)
    ∧ selectFinalTopic [] = none
    ∧ selectFinalTopic [exampleTopicA, exampleTopicB] = some exampleTopicB := by
  refine ⟨selectFinalTopic_nonempty topics h, rfl, ?_⟩
  obtain ⟨t, hsel, hmem, hmax, -⟩ :=
    selectFinalTopic_nonempty [exampleTopicA, exampleTopicB] (by simp)
  have hBt : finalScore exampleTopicB ≤ finalScore t :=
    hmax _ (by simp)
  have ht : t = exampleTopicA ∨ t = exampleTopicB := by
    simpa using hmem
  rcases ht with rfl | rfl
  · exfalso
    revert hBt
    simp only [finalScore, exampleTopicA, exampleTopicB, not_le]
    norm_num
  · exact hsel

/-- Witness for C3 at the concrete two-topic list of the spec's example. -/
theorem selectFinalTopic_spec_witness :
    (∃ t, selectFinalTopic [exampleTopicA, exampleTopicB] = some t
      ∧ t ∈ [exampleTopicA, exampleTopicB]
      ∧ (∀ u ∈ [exampleTopicA, exampleTopicB], finalScore u ≤ finalScore t)
      ∧ ∃ l₁ l₂, [exampleTopicA, exampleTopicB] = l₁ ++ t :: l₂
          ∧ ∀ u ∈ l₁, finalScore u < finalScore t)
    ∧ selectFinalTopic [] = none
    ∧ selectFinalTopic [exampleTopicA, exampleTopicB] = some exampleTopicB :=
  selectFinalTopic_spec [exampleTopicA, exampleTopicB] (by simp)

/-! ## C2: fuzzy-matching threshold

The spec says similarity `≥ 0.7` attaches; the code tests `similarity > 0.7`
(strictly), so similarity exactly `0.7` creates a new cluster. -/

/-- Google observation whose normalized keyword is `"aaaaaaaaaa"`. -/
def simG : TrendTopic where
  keyword := "aaaaaaaaaa"
  score := 10
  region := "KR"
  category := "general"
  relatedQueries := []
  predictedViews := 100
  volatility := 0
  competitiveness := 0

/-- Naver observation whose normalized keyword `"aaaaaaabbb"` is at edit
distance 3 from `"aaaaaaaaaa"`: similarity `(10 − 3)/10 = 0.7` exactly. -/
def simN : NaverTrendTopic where
  keyword := "aaaaaaabbb"
  searchVolume := 50
  growth := 10
  category := "news"
  relatedKeywords := []

/-- Google observation `"aaaaaaaabb"`: similarity `0.8 > 0.7` to the existing
cluster `"aaaaaaaaaa"`, yet never fuzzy-attached. -/
def simG2 : TrendTopic where
  keyword := "aaaaaaaabb"
  score := 20
  region := "KR"
  category := "general"
  relatedQueries := []
  predictedViews := 200
  volatility := 0
  competitiveness := 0

set_option maxRecDepth 8192 in
/-- Counterexample to C2 as stated: the incoming observation has similarity
exactly `0.7` to the only existing cluster and no exact match, yet the run
produces two clusters — it is *not* attached (the code's test is strict
`> 0.7`). -/
theorem similarity_boundary_not_attached :
    calculateSimilarity (normalizeKeyword "aaaaaaabbb")
        (normalizeKeyword "aaaaaaaaaa") = 7/10
    ∧ (aggregateMultiSourceTrends 0 [simG] [simN] []).length = 2
    ∧ calculateSimilarity (normalizeKeyword "aaaaaaaabb")
        (normalizeKeyword "aaaaaaaaaa") = 8/10
    ∧ (aggregateMultiSourceTrends 0 [simG, simG2] [] []).length = 2 := by
  have h1 : normalizeKeyword "aaaaaaaaaa" = "aaaaaaaaaa" := by decide
  have h2 : normalizeKeyword "aaaaaaabbb" = "aaaaaaabbb" := by decide
  have h3 : normalizeKeyword "aaaaaaaabb" = "aaaaaaaabb" := by decide
  have hlev : levenshtein "aaaaaaabbb".data "aaaaaaaaaa".data = 3 := by decide
  have hlev2 : levenshtein "aaaaaaaabb".data "aaaaaaaaaa".data = 2 := by decide
  have hsimeq : calculateSimilarity "aaaaaaabbb" "aaaaaaaaaa" = 7/10 := by
    simp [calculateSimilarity, hlev]
    norm_num
  have hsimeq2 : calculateSimilarity "aaaaaaaabb" "aaaaaaaaaa" = 8/10 := by
    simp [calculateSimilarity, hlev2]
    norm_num
  have hsim : ¬ (calculateSimilarity "aaaaaaabbb" "aaaaaaaaaa" > 7/10) := by
    rw [hsimeq]
    exact lt_irrefl _
  refine ⟨by rw [h1, h2, hsimeq], ?_, by rw [h1, h3, hsimeq2], ?_⟩
  · simp [aggregateMultiSourceTrends, processGoogleTrend, processNaverTrend,
      mapGet, mapUpdate, mapKeys, h1, h2, hsim, List.mergeSort,
      createAggregatedTrend, simG, simN, findSimilarKeyword, findSimilarAux,
      List.length_mergeSort]
  · simp [aggregateMultiSourceTrends, processGoogleTrend, mapGet, mapUpdate,
      h1, h3, List.mergeSort, createAggregatedTrend, simG, simG2,
      List.length_mergeSort]

lemma findSimilarAux_eq_none_iff (nk : String) (es : List String) :
    findSimilarAux nk es = none ↔
      ∀ e ∈ es, nk ≠ normalizeKeyword e
        ∧ calculateSimilarity nk (normalizeKeyword e) ≤ 7/10 := by
  induction es with
  | nil => simp [findSimilarAux]
  | cons e rest ih =>
    by_cases h1 : nk = normalizeKeyword e
    · simp only [findSimilarAux, if_pos h1]
      constructor
      · intro h
        exact absurd h (Option.some_ne_none _)
      · intro h
        exact absurd h1 (h e (List.mem_cons_self e rest)).1
    · by_cases h2 : calculateSimilarity nk (normalizeKeyword e) > 7/10
      · simp only [findSimilarAux, if_neg h1, if_pos h2]
        constructor
        · intro h
          exact absurd h (Option.some_ne_none _)
        · intro h
          exact absurd h2 (not_lt.mpr (h e (List.mem_cons_self e rest)).2)
      · simp only [findSimilarAux, if_neg h1, if_neg h2]
        rw [ih]
        constructor
        · intro h e2 he2
          rcases List.mem_cons.mp he2 with rfl | hmem
          · exact ⟨h1, not_lt.mp h2⟩
          · exact h e2 hmem
        · intro h e2 he2
          exact h e2 (List.mem_cons_of_mem _ he2)

lemma mapGet_none_iff (m : KeywordMap) (k : String) :
    mapGet m k = none ↔ ∀ e ∈ m, e.1 ≠ k := by
  unfold mapGet
  simp only [Option.map_eq_none', List.head?_eq_none_iff, List.filter_eq_nil_iff,
    decide_eq_true_eq]

/-- What C2, amended, requires of one resolution step over the keyword map
`m`, given observations `tg`/`tn`/`ty` with no exact key match: a Google
observation always opens a new single-member cluster (the Google loop does
no fuzzy matching); a Naver or YouTube observation is attached to an
existing cluster when its similarity to some existing key is *strictly*
greater than `0.7`, and opens a new single-member cluster when every
existing key is at similarity `≤ 0.7` — including exactly `0.7`. -/
def strictThresholdSpec (m : KeywordMap) (tg : TrendTopic)
    (tn : NaverTrendTopic) (ty : YouTubeTrendTopic) : Prop :=
  processGoogleTrend m tg = m ++ [(normalizeKeyword tg.keyword,
      { keyword := tg.keyword, aggregatedScore := 0,
        sources := [Source.google], sourceData := { google := some tg },
        category := "general", predictedViews := 0, confidence := 0,
        crossPlatformValidation := false, trendVelocity := 0 })]
  ∧ ((∃ e ∈ mapKeys m, normalizeKeyword tn.keyword = normalizeKeyword e
        ∨ calculateSimilarity (normalizeKeyword tn.keyword)
            (normalizeKeyword e) > 7/10)
      → (processNaverTrend m tn).length = m.length)
  ∧ ((∀ e ∈ mapKeys m, normalizeKeyword tn.keyword ≠ normalizeKeyword e
        ∧ calculateSimilarity (normalizeKeyword tn.keyword)
            (normalizeKeyword e) ≤ 7/10)
      → processNaverTrend m tn = m ++ [(normalizeKeyword tn.keyword,
          { keyword := tn.keyword, aggregatedScore := 0,
            sources := [Source.naver], sourceData := { naver := some tn },
            category := "general", predictedViews := 0, confidence := 0,
            crossPlatformValidation := false, trendVelocity := 0 })])
  ∧ ((∃ e ∈ mapKeys m, normalizeKeyword ty.keyword = normalizeKeyword e
        ∨ calculateSimilarity (normalizeKeyword ty.keyword)
            (normalizeKeyword e) > 7/10)
      → (processYouTubeTrend m ty).length = m.length)
  ∧ ((∀ e ∈ mapKeys m, normalizeKeyword ty.keyword ≠ normalizeKeyword e
        ∧ calculateSimilarity (normalizeKeyword ty.keyword)
            (normalizeKeyword e) ≤ 7/10)
      → processYouTubeTrend m ty = m ++ [(normalizeKeyword ty.keyword,
          { keyword := ty.keyword, aggregatedScore := 0,
            sources := [Source.youtube], sourceData := { youtube := some ty },
            category := "general", predictedViews := 0, confidence := 0,
            crossPlatformValidation := false, trendVelocity := 0 })])

/-- C2 amended: one resolution step of each source loop, on incoming
observations with no exact key match, behaves per `strictThresholdSpec`:
strictly-above-`0.7` similarity attaches (Naver/YouTube), everything else —
similarity exactly `0.7` included, and *every* Google observation — opens a
new single-member cluster. -/
theorem entityResolution_strict_threshold (m : KeywordMap)
    (tg : TrendTopic) (tn : NaverTrendTopic) (ty : YouTubeTrendTopic)
    (hg : mapGet m (normalizeKeyword tg.keyword) = none)
    (hn : mapGet m (normalizeKeyword tn.keyword) = none)
    (hy : mapGet m (normalizeKeyword ty.keyword) = none) :
    strictThresholdSpec m tg tn ty := by
  have hidemn := normalizeKeyword_idem tn.keyword
  have hidemy := normalizeKeyword_idem ty.keyword
  have hkeysg := (mapGet_none_iff m _).mp hg
  refine ⟨?_, ?_, ?_, ?_, ?_⟩
  · -- Google: unconditional new cluster
    simp only [processGoogleTrend, hg, Option.isNone_none, if_pos]
    unfold mapUpdate
    rw [List.map_append]
    have h1 : ∀ e ∈ m,
        (if e.1 = normalizeKeyword tg.keyword
          then (e.1, { e.2 with
            sourceData := { e.2.sourceData with google := some tg }
            sources := e.2.sources ++ [Source.google] })
          else e) = e :=
      fun e he => if_neg (hkeysg e he)
    rw [List.map_congr_left h1]
    simp [createAggregatedTrend]
  · intro hex
    have hne : findSimilarAux (normalizeKeyword tn.keyword) (mapKeys m)
        ≠ none := by
      intro hcontra
      rw [findSimilarAux_eq_none_iff] at hcontra
      obtain ⟨e, he, hor⟩ := hex
      rcases hor with heq | hgt
      · exact (hcontra e he).1 heq
      · exact not_lt.mpr (hcontra e he).2 hgt
    obtain ⟨sk, hsk⟩ := Option.ne_none_iff_exists'.mp hne
    simp [processNaverTrend, findSimilarKeyword, hidemn, hn, hsk, mapUpdate]
  · intro hall
    have h0 : findSimilarAux (normalizeKeyword tn.keyword) (mapKeys m)
        = none :=
      (findSimilarAux_eq_none_iff _ _).mpr hall
    simp [processNaverTrend, findSimilarKeyword, hidemn, hn, h0,
      createAggregatedTrend]
  · intro hex
    have hne : findSimilarAux (normalizeKeyword ty.keyword) (mapKeys m)
        ≠ none := by
      intro hcontra
      rw [findSimilarAux_eq_none_iff] at hcontra
      obtain ⟨e, he, hor⟩ := hex
      rcases hor with heq | hgt
      · exact (hcontra e he).1 heq
      · exact not_lt.mpr (hcontra e he).2 hgt
    obtain ⟨sk, hsk⟩ := Option.ne_none_iff_exists'.mp hne
    simp [processYouTubeTrend, findSimilarKeyword, hidemy, hy, hsk, mapUpdate]
  · intro hall
    have h0 : findSimilarAux (normalizeKeyword ty.keyword) (mapKeys m)
        = none :=
      (findSimilarAux_eq_none_iff _ _).mpr hall
    simp [processYouTubeTrend, findSimilarKeyword, hidemy, hy, h0,
      createAggregatedTrend]

/-- A keyword map holding the single existing cluster `"aaaaaaaaaa"`. -/
def oneClusterMap : KeywordMap :=
  [("aaaaaaaaaa", createAggregatedTrend "aaaaaaaaaa")]

/-- YouTube observation with the boundary keyword `"aaaaaaabbb"`. -/
def simY : YouTubeTrendTopic where
  keyword := "aaaaaaabbb"
  title := "t"
  channelTitle := "ch"
  viewCount := 20000
  likeCount := 100
  commentCount := 10
  publishedAt := 0
  categoryId := "28"
  tags := []
  trendScore := 1000
  thumbnail := "th"
  videoId := "v"

/-- Witness for the amended C2 at a concrete map and observations. -/
theorem entityResolution_strict_threshold_witness :
    mapGet oneClusterMap (normalizeKeyword simG2.keyword) = none
    ∧ mapGet oneClusterMap (normalizeKeyword simN.keyword) = none
    ∧ mapGet oneClusterMap (normalizeKeyword simY.keyword) = none
    ∧ strictThresholdSpec oneClusterMap simG2 simN simY :=
  ⟨by decide, by decide, by decide,
    entityResolution_strict_threshold oneClusterMap simG2 simN simY
      (by decide) (by decide) (by decide)⟩

/-! ## C5: cross-platform validation and the Google duplicate bug -/

/-- Google observation `"AI"` (normalizes to `"ai"`). -/
def googleAI : TrendTopic where
  keyword := "AI"
  score := 80
  region := "KR"
  category := "technology"
  relatedQueries := []
  predictedViews := 1000
  volatility := 0
  competitiveness := 0

/-- Google observation `"AI!"` (also normalizes to `"ai"`). -/
def googleAIBang : TrendTopic where
  keyword := "AI!"
  score := 60
  region := "KR"
  category := "technology"
  relatedQueries := []
  predictedViews := 900
  volatility := 0
  competitiveness := 0

/-- C5 failing input: two Google observations merged under the one
normalized keyword `"ai"` — a single distinct source — yet the produced
cluster has `crossPlatformValidation = true`, because the Google loop pushes
`'google'` onto `sources` without the duplicate check the Naver and YouTube
loops perform, and the flag is computed as `sources.length > 1`. -/
theorem crossPlatformValidation_duplicate_google :
    (aggregateMultiSourceTrends 0 [googleAI, googleAIBang] [] []).map
        (fun c => (c.crossPlatformValidation, c.sources))
      = [(true, [Source.google, Source.google])] := by
  have h1 : normalizeKeyword "AI" = "ai" := by decide
  have h2 : normalizeKeyword "AI!" = "ai" := by decide
  simp [aggregateMultiSourceTrends, processGoogleTrend, mapGet, mapUpdate,
    List.mergeSort, createAggregatedTrend, googleAI, googleAIBang, h1, h2,
    calculateAggregatedMetrics]

/-! ## C8: trend velocity -/

/-- A Naver observation with growth `0` and no YouTube data. -/
def naverZeroGrowth : NaverTrendTopic where
  keyword := "ai"
  searchVolume := 50
  growth := 0
  category := "news"
  relatedKeywords := []

/-- The cluster `aggregateMultiSourceTrends 0 [] [naverZeroGrowth] []`
produces. -/
def naverZeroCluster : AggregatedTrendResult where
  keyword := "ai"
  aggregatedScore := 50
  sources := [Source.naver]
  sourceData := { naver := some naverZeroGrowth }
  category := "news"
  predictedViews := 5000
  confidence := 7/10
  crossPlatformValidation := false
  trendVelocity := 1/2

lemma aggregate_naverZero_eval :
    aggregateMultiSourceTrends 0 [] [naverZeroGrowth] []
      = [naverZeroCluster] := by
  have h1 : normalizeKeyword "ai" = "ai" := by decide
  simp [aggregateMultiSourceTrends, processNaverTrend, mapGet, mapUpdate,
    mapKeys, calculateAggregatedMetrics, h1, List.mergeSort,
    createAggregatedTrend, naverZeroGrowth, findSimilarKeyword,
    findSimilarAux, calculateTrendVelocity, calculateTrendVelocityNoNaver,
    calculateConfidence, jsRound, naverZeroCluster]
  norm_num

/-- Counterexample to C8 as stated: a cluster with a Naver observation of
growth `0` (and no YouTube observation) gets the default velocity `0.5`, not
the Naver growth `0/100 = 0` the claim requires — the code's
`sourceData.naver?.growth` test is falsy at `0`. -/
theorem naverZeroGrowth_velocity_default :
    (aggregateMultiSourceTrends 0 [] [naverZeroGrowth] []).map
        (fun c => c.trendVelocity) = [1/2]
      ∧ naverZeroGrowth.growth / 100 ≠ (1/2 : ℚ) := by
  rw [aggregate_naverZero_eval]
  refine ⟨by simp [naverZeroCluster], ?_⟩
  simp [naverZeroGrowth]

lemma metrics_sourceData (now : ℚ) (r : AggregatedTrendResult) :
    (calculateAggregatedMetrics now r).sourceData = r.sourceData := by
  simp [calculateAggregatedMetrics]

lemma metrics_keyword (now : ℚ) (r : AggregatedTrendResult) :
    (calculateAggregatedMetrics now r).keyword = r.keyword := by
  simp [calculateAggregatedMetrics]

lemma velocity_congr (now : ℚ) (r1 r2 : AggregatedTrendResult)
    (h : r1.sourceData = r2.sourceData) :
    calculateTrendVelocity now r1 = calculateTrendVelocity now r2 := by
  unfold calculateTrendVelocity calculateTrendVelocityNoNaver
  rw [h]

lemma metrics_trendVelocity (now : ℚ) (r : AggregatedTrendResult) :
    (calculateAggregatedMetrics now r).trendVelocity
      = calculateTrendVelocity now r := by
  simp only [calculateAggregatedMetrics]
  exact velocity_congr now _ r rfl

/-- What C8, amended, requires of a cluster's `trendVelocity`: the Naver
growth rate `growth/100` whenever a Naver observation with *nonzero* growth
is present; otherwise (Naver absent or its growth `0`) the YouTube
recency-weighted engagement rate when a YouTube observation is present;
otherwise the default `0.5`. -/
def velocitySpec (now : ℚ) (c : AggregatedTrendResult) : Prop :=
  (∀ nv, c.sourceData.naver = some nv → nv.growth ≠ 0 →
    c.trendVelocity = nv.growth / 100)
  ∧ (∀ nv, c.sourceData.naver = some nv → nv.growth = 0 →
      c.sourceData.youtube = none → c.trendVelocity = 1/2)
  ∧ (∀ nv yt, c.sourceData.naver = some nv → nv.growth = 0 →
      c.sourceData.youtube = some yt → c.trendVelocity =
        max 0 ((7 - (now - yt.publishedAt) / (1000 * 60 * 60 * 24)) / 7)
          * (if yt.viewCount > 0
              then (yt.likeCount + yt.commentCount) / yt.viewCount else 0)
          * 10)
  ∧ (c.sourceData.naver = none → c.sourceData.youtube = none →
      c.trendVelocity = 1/2)
  ∧ (∀ yt, c.sourceData.naver = none → c.sourceData.youtube = some yt →
      c.trendVelocity =
        max 0 ((7 - (now - yt.publishedAt) / (1000 * 60 * 60 * 24)) / 7)
          * (if yt.viewCount > 0
              then (yt.likeCount + yt.commentCount) / yt.viewCount else 0)
          * 10)

/-- C8 amended: every cluster produced by aggregation satisfies
`velocitySpec` — Naver growth applies only when nonzero; a present Naver
observation with growth `0` falls through to the YouTube rate or the default
`0.5`. -/
theorem trendVelocity_rule (now : ℚ) (googleTrends : List TrendTopic)
    (naverTrends : List NaverTrendTopic)
    (youtubeTrends : List YouTubeTrendTopic) :
    ∀ c ∈ aggregateMultiSourceTrends now googleTrends naverTrends
        youtubeTrends, velocitySpec now c := by
  intro c hc
  simp only [aggregateMultiSourceTrends] at hc
  have hc2 := (List.mergeSort_perm _ _).mem_iff.mp hc
  obtain ⟨e, -, rfl⟩ := List.mem_map.mp hc2
  unfold velocitySpec
  simp only [metrics_sourceData, metrics_trendVelocity]
  refine ⟨?_, ?_, ?_, ?_, ?_⟩
  · intro nv hnv hg
    simp [calculateTrendVelocity, hnv, hg]
  · intro nv hnv hg hyt
    simp [calculateTrendVelocity, calculateTrendVelocityNoNaver, hnv, hg, hyt]
  · intro nv yt hnv hg hyt
    simp [calculateTrendVelocity, calculateTrendVelocityNoNaver, hnv, hg, hyt]
  · intro hnv hyt
    simp [calculateTrendVelocity, calculateTrendVelocityNoNaver, hnv, hyt]
  · intro yt hnv hyt
    simp [calculateTrendVelocity, calculateTrendVelocityNoNaver, hnv, hyt]

/-- Witness for the amended C8 at the concrete growth-`0` run. -/
theorem trendVelocity_rule_witness :
    naverZeroCluster ∈ aggregateMultiSourceTrends 0 [] [naverZeroGrowth] []
      ∧ velocitySpec 0 naverZeroCluster :=
  have hmem : naverZeroCluster
      ∈ aggregateMultiSourceTrends 0 [] [naverZeroGrowth] [] := by
    rw [aggregate_naverZero_eval]
    exact List.mem_singleton.mpr rfl
  ⟨hmem, trendVelocity_rule 0 [] [naverZeroGrowth] [] naverZeroCluster hmem⟩

/-! ## C9: blank keywords are not discarded -/

/-- An observation whose keyword normalizes to the empty string. -/
def blankTopic : TrendTopic where
  keyword := "!!!"
  score := 10
  region := "KR"
  category := "general"
  relatedQueries := []
  predictedViews := 100
  volatility := 0
  competitiveness := 0

/-- Counterexample to C9 as stated: the observation `"!!!"` normalizes to
`""`, yet the output of `aggregateMultiSourceTrends` is exactly one cluster
created from (and containing) that observation — blank keywords are not
discarded. -/
theorem blankKeyword_cluster_created :
    (aggregateMultiSourceTrends 0 [blankTopic] [] []).map
        (fun c => (c.keyword, c.sourceData.google))
      = [("!!!", some blankTopic)] := by
  have h1 : normalizeKeyword "!!!" = "" := by decide
  simp [aggregateMultiSourceTrends, processGoogleTrend, mapGet, mapUpdate,
    calculateAggregatedMetrics, h1, List.mergeSort, createAggregatedTrend,
    blankTopic]

/-- C9 amended: a Google observation whose keyword normalizes to the empty
string is kept: it forms a cluster, keyed by the empty normalized keyword,
that appears in the output and carries the observation. -/
theorem blankKeyword_kept (now : ℚ) (t : TrendTopic)
    (h : normalizeKeyword t.keyword = "") :
    ∃ c ∈ aggregateMultiSourceTrends now [t] [] [],
      c.keyword = t.keyword ∧ c.sourceData.google = some t := by
  have hagg : aggregateMultiSourceTrends now [t] [] []
      = [calculateAggregatedMetrics now
          { keyword := t.keyword, aggregatedScore := 0,
            sources := [Source.google],
            sourceData := { google := some t }, category := "general",
            predictedViews := 0, confidence := 0,
            crossPlatformValidation := false, trendVelocity := 0 }] := by
    simp [aggregateMultiSourceTrends, processGoogleTrend, mapGet, mapUpdate,
      createAggregatedTrend, List.mergeSort]
  refine ⟨calculateAggregatedMetrics now
      { keyword := t.keyword, aggregatedScore := 0,
        sources := [Source.google],
        sourceData := { google := some t }, category := "general",
        predictedViews := 0, confidence := 0,
        crossPlatformValidation := false, trendVelocity := 0 }, ?_, ?_, ?_⟩
  · rw [hagg]
    exact List.mem_singleton.mpr rfl
  · rw [metrics_keyword]
  · rw [metrics_sourceData]

/-- Witness for the amended C9 at the concrete blank observation. -/
theorem blankKeyword_kept_witness :
    normalizeKeyword blankTopic.keyword = ""
      ∧ ∃ c ∈ aggregateMultiSourceTrends 0 [blankTopic] [] [],
          c.keyword = blankTopic.keyword
            ∧ c.sourceData.google = some blankTopic :=
  ⟨by decide, blankKeyword_kept 0 blankTopic (by decide)⟩

end SFP
